import Mathlib

/-!
# Verification of the FROST secp256k1 DKG/signing orchestration

A shallow embedding of the Python sources of the repository:

* `src/coordinator/coordinator.py` — the stateless orchestrator (`run_dkg`,
  `check_dkg_status`, routing of DKG round-1/round-2 packages);
* `src/signer/signer.py` — the per-participant signer node endpoints
  (`dkg_round2_endpoint`, `dkg_round3_endpoint`, `signing_round2`,
  `handle_rust_error`).

Participant identifiers and cryptographic payloads are hex strings in the
source and are modelled as `String`.  The opaque Rust cryptographic engine
(`rust_tss`) is out of scope in the source repository; endpoints are
parameterised over the engine functions they delegate to.

Failure modelling.  `httpx` raises on transport-level failures (these
propagate out of `asyncio.gather`) but does *not* raise on HTTP error
statuses: an error response is delivered as a normal response whose JSON body
is `{"detail": ...}`.  For the status, round-1 and round-2 phases the
coordinator reads the expected fields of *every* response (`coordinator.py`
lines 56-57, 96, 115), so an error body raises `KeyError` there and the run
aborts either way; the status, `round1` and `round2` calls are therefore
modelled with a single `.error` case covering both failure modes.  The
round-3 phase is different: the coordinator reads only `round3_data[0]`
(lines 154-155), so the `round3` call is modelled in two levels — an outer
`.error` for a transport failure (which aborts the `gather`) and an inner
`Except` for the parsed body, whose error bodies are only noticed at index 0.
-/

/-- An error as the orchestrator observes it: the `(status, detail)` pair of
a failing HTTP interaction, or a Python-level exception (status 0). -/
abbrev HErr := Nat × String

/-- The `KeyError` raised when the coordinator reads a field that is absent
from a parsed error body (e.g. `round3_data[0]["verify_key_hex"]` on a
`{"detail": ...}` body). -/
def keyError (field : String) : HErr := (0, "KeyError: " ++ field)

/-- Python exception classes that can reach `handle_rust_error` in
`src/signer/signer.py`: the five classes its `isinstance` test names, plus
FastAPI's `HTTPException` (which is *not* among them) and a catch-all. -/
inductive PyExc where
  | runtimeError
  | valueError
  | connectionError
  | osError
  | systemError
  | httpException (status : Nat) (detail : String)
  | otherExc
deriving DecidableEq

/-- Response of `GET /dkg/status` as consumed by the coordinator
(`signer.py` `dkg_status`): key-existence flag, group artifacts, id. -/
structure StatusResp where
  is_exist : Bool
  verify_key_hex : String
  pubkp_hex : String
  id_hex : String
deriving DecidableEq

/-- Response of `POST /dkg/round1` (`signer.py` `dkg_round1_endpoint`). -/
structure R1Resp where
  id_hex : String
  pkg_hex : String
deriving DecidableEq

/-- Response of `POST /dkg/round2`: the sender's id and its parsed
`pkgs2_json` list of `(target_id, payload)` pairs (the coordinator
`json.loads`-parses the JSON string; we model the parsed value). -/
structure R2Resp where
  id_hex : String
  pkgs2 : List (String × String)
deriving DecidableEq

/-- Response of `POST /dkg/round3`: the Group Public Artifacts. -/
structure R3Resp where
  verify_key_hex : String
  pubkp_hex : String
deriving DecidableEq

/-! ## Coordinator routing helpers (`src/coordinator/coordinator.py`) -/

/-- `coordinator.py` lines 102-103 and 134-136: the Round-1 package list sent
to the signer with identifier `self_id`, i.e.
`[pkg for pkg in r1_pkgs if pkg[0] != self_id]`. -/
def pkgsForSigner (r1_pkgs : List (String × String)) (self_id : String) :
    List (String × String) :=
  r1_pkgs.filter (fun pkg => !(pkg.1 == self_id))

/-- `coordinator.py` lines 118-123: flatten all nodes' Round-2 outputs into a
single list of `(sender_id, (target_id, payload))` triples. -/
def flattenR2 (outs : List (String × List (String × String))) :
    List (String × String × String) :=
  outs.flatMap (fun sp => sp.2.map (fun tp => (sp.1, tp.1, tp.2)))

/-- `coordinator.py` lines 138-140: the Round-2 entries delivered to the
signer with identifier `self_id`, i.e.
`[(sender_id, pkg[1]) for sender_id, pkg in r2_pkgs if pkg[0] == self_id]`. -/
def r2PkgsForSigner (r2_pkgs : List (String × String × String))
    (self_id : String) : List (String × String) :=
  (r2_pkgs.filter (fun sp => sp.2.1 == self_id)).map (fun sp => (sp.1, sp.2.2))

/-- Claim C4: for every participant, the Round-1 package list the coordinator
sends to that participant's dkgRound2 and dkgRound3 calls (built by
`pkgsForSigner` at both call sites of `run_dkg`) never contains the entry
tagged with that participant's own identifier, and contains every entry tagged
with a different identifier. -/
theorem pkgsForSigner_excludes_self_keeps_others
    (r1_pkgs : List (String × String)) (self_id : String)
    (p : String × String) :
    p ∈ pkgsForSigner r1_pkgs self_id ↔ p ∈ r1_pkgs ∧ p.1 ≠ self_id := by
  unfold pkgsForSigner
  simp [List.mem_filter]

/-- Witness for C4: on the concrete Round-1 set
`[("01","a1"), ("02","a2")]` and recipient `"01"`, the entry tagged `"02"` is
delivered and the entry tagged `"01"` is not. -/
theorem pkgsForSigner_excludes_self_keeps_others_witness :
    ("02", "a2") ∈ pkgsForSigner [("01", "a1"), ("02", "a2")] "01" ∧
      ("01", "a1") ∉ pkgsForSigner [("01", "a1"), ("02", "a2")] "01" := by
  constructor
  · exact (pkgsForSigner_excludes_self_keeps_others
      [("01", "a1"), ("02", "a2")] "01" ("02", "a2")).mpr (by decide)
  · intro hmem
    have h := (pkgsForSigner_excludes_self_keeps_others
      [("01", "a1"), ("02", "a2")] "01" ("01", "a1")).mp hmem
    exact h.2 rfl

/-- Claim C3: the Round-2 payload set the coordinator passes to participant
`X`'s dkgRound3 call (built by `r2PkgsForSigner` from the flattened union of
all senders' Round-2 outputs) contains `(s, pl)` exactly when the flattened
union contains the entry `(s, (X, pl))`: no payload addressed to `X` is
dropped and no payload addressed to another participant is included. -/
theorem round2_routing_exact
    (outs : List (String × List (String × String))) (X s pl : String) :
    (s, pl) ∈ r2PkgsForSigner (flattenR2 outs) X ↔
      (s, (X, pl)) ∈ flattenR2 outs := by
  unfold r2PkgsForSigner
  constructor
  · intro hmem
    rcases List.mem_map.mp hmem with ⟨⟨a, t, q⟩, hf, heq⟩
    rcases List.mem_filter.mp hf with ⟨hin, ht⟩
    simp only [beq_iff_eq] at ht
    obtain ⟨rfl, rfl⟩ : a = s ∧ q = pl := by
      simpa using heq
    subst ht
    exact hin
  · intro hmem
    refine List.mem_map.mpr ⟨(s, (X, pl)), List.mem_filter.mpr ⟨hmem, ?_⟩, rfl⟩
    simp

/-- Witness for C3: in a concrete two-sender flattened union, the payload
`("02","c21")` addressed to `"01"` is delivered to `"01"`, and the payload
addressed to `"02"` is not delivered to `"01"`. -/
theorem round2_routing_exact_witness :
    ("02", "c21") ∈
      r2PkgsForSigner
        (flattenR2 [("01", [("02", "c12")]), ("02", [("01", "c21")])]) "01" ∧
      ("01", "c12") ∉
        r2PkgsForSigner
          (flattenR2 [("01", [("02", "c12")]), ("02", [("01", "c21")])]) "01" := by
  constructor
  · exact (round2_routing_exact
      [("01", [("02", "c12")]), ("02", [("01", "c21")])] "01" "02" "c21").mpr
      (by decide)
  · intro hmem
    have h := (round2_routing_exact
      [("01", [("02", "c12")]), ("02", [("01", "c21")])] "01" "01" "c12").mp hmem
    revert h
    decide

/-! ## Signer node endpoints (`src/signer/signer.py`) -/

/-- `signer.py` `handle_rust_error`: maps a caught exception to the
`HTTPException` the endpoint raises.  The five classes named by the
`isinstance` test get `500 Internal Server Error: <context>`; everything
else — including a caught `HTTPException` — gets
`500 Internal Server Error: <context>: Unexpected error type`.  (The Python
detail strings additionally interpolate the exception text; that suffix is
omitted here.) -/
def handle_rust_error (e : PyExc) (context : String) : HErr :=
  match e with
  | .runtimeError | .valueError | .connectionError | .osError | .systemError =>
      (500, "Internal Server Error: " ++ context)
  | _ =>
      (500, "Internal Server Error: " ++ context ++ ": Unexpected error type")

/-- `signer.py` `dummy_verify`: the placeholder signing policy hook, which
approves every message. -/
def dummy_verify (message_hex : String) : Bool :=
  true

/-- `signer.py` `dkg_round2_endpoint`, parameterised over the engine function
`rust_tss.dkg_round2` it delegates to.  The emptiness check is performed
before the `try` block, so it reaches the client as a 400; any exception the
engine raises inside the `try` goes through `handle_rust_error`. -/
def dkg_round2_endpoint
    (engine : String → List (String × String) → Except PyExc (List (String × String)))
    (pid_hex : String) (pkgs_hex : List (String × String)) :
    Except HErr R2Resp :=
  if pkgs_hex.isEmpty then
    .error (400, "Missing \x27pkgs_hex\x27 in request body")
  else
    match engine pid_hex pkgs_hex with
    | .ok outs => .ok ⟨pid_hex, outs⟩
    | .error e => .error (handle_rust_error e "DKG Round 2")

/-- `signer.py` `dkg_round3_endpoint`, parameterised over the engine function
`rust_tss.dkg_round3`.  The engine returns `(pubkp_hex, verify_key_hex)`;
the endpoint replies with the Group Public Artifacts. -/
def dkg_round3_endpoint
    (engine : List (String × String) → List (String × String) →
      Except PyExc (String × String))
    (pid_hex : String) (r1_pkgs_hex r2_pkgs_hex : List (String × String)) :
    Except HErr R3Resp :=
  if r1_pkgs_hex.isEmpty || r2_pkgs_hex.isEmpty then
    .error (400, "Missing \x27r1_pkgs_hex\x27 or \x27r2_pkgs_hex\x27 in request body")
  else
    match engine r1_pkgs_hex r2_pkgs_hex with
    | .ok (pubkp, vk) => .ok ⟨vk, pubkp⟩
    | .error e => .error (handle_rust_error e "DKG Round 3")

/-- `signer.py` `signing_round2`, parameterised over the policy hook
(`dummy_verify` in the shipped code) and the engine function
`rust_tss.sign_round2`.  Crucially, the whole body — including the
`raise HTTPException(status_code=400, ...)` refusal — sits inside the `try`
block, so the refusal is caught by `except Exception` and re-raised via
`handle_rust_error`. -/
def signing_round2 (verify : String → Bool)
    (engine : String → List (String × String) → Except PyExc String)
    (pid_hex message_hex : String) (commitments : List (String × String)) :
    Except HErr (String × String) :=
  if verify message_hex then
    match engine message_hex commitments with
    | .ok share => .ok (pid_hex, share)
    | .error e => .error (handle_rust_error e "Signing Round 2")
  else
    .error (handle_rust_error
      (.httpException 400
        "Invalid message hex, potentially malformed transaction, decline to sign.")
      "Signing Round 2")

/-- Claim C7 (failing behaviour): when the policy hook rejects the message
(the hook point the shipped `dummy_verify` placeholder occupies), the
`HTTPException(400)` refusal raised inside the `try` block is caught by the
blanket `except` and re-raised by `handle_rust_error` as HTTP 500
"Internal Server Error ... Unexpected error type" — byte-for-byte the same
status and shape as an engine `RuntimeError` (an infrastructure failure), so
the refusal is *not* client-distinguishable from a node failure. -/
theorem signing_round2_refusal_is_internal_error :
    signing_round2 (fun _ => false) (fun _ _ => .ok "share") "01" "00" [] =
        .error (500, "Internal Server Error: Signing Round 2: Unexpected error type") ∧
      signing_round2 dummy_verify (fun _ _ => .error .runtimeError) "01" "00" [] =
        .error (500, "Internal Server Error: Signing Round 2") := by
  exact ⟨rfl, rfl⟩

/-- Modelled from the spec: the cryptographic engine operation
`rust_tss.dkg_round2` is not part of the Python sources under `src/`; only its
caller `dkg_round2_endpoint` is.  Per the spec's words for the dkgRound2 node
operation — "input must not include caller's own package — caller that
violates this should fail validation, not silently succeed" — the engine
rejects any input list containing an entry tagged with the caller's own
identifier, and otherwise delegates to the (opaque, here parameterised)
cryptographic core. -/
def rust_dkg_round2
    (core : String → List (String × String) → List (String × String))
    (pid_hex : String) (pkgs_hex : List (String × String)) :
    Except PyExc (List (String × String)) :=
  if pkgs_hex.any (fun p => p.1 == pid_hex) then
    .error .valueError
  else
    .ok (core pid_hex pkgs_hex)

/-- Claim C8: every call to the signer's dkgRound2 operation (the endpoint
delegating to the spec-modelled engine) whose input package list includes an
entry tagged with the caller's own identifier fails, surfacing the engine's
validation error instead of succeeding. -/
theorem dkg_round2_rejects_own_package
    (core : String → List (String × String) → List (String × String))
    (pid_hex : String) (pkgs_hex : List (String × String))
    (h : ∃ p ∈ pkgs_hex, p.1 = pid_hex) :
    dkg_round2_endpoint (rust_dkg_round2 core) pid_hex pkgs_hex =
      .error (handle_rust_error .valueError "DKG Round 2") := by
  obtain ⟨p, hp, hpid⟩ := h
  have hne : pkgs_hex.isEmpty = false := by
    cases pkgs_hex with
    | nil => cases hp
    | cons a as => rfl
  have hany : pkgs_hex.any (fun q => q.1 == pid_hex) = true :=
    List.any_eq_true.mpr ⟨p, hp, by simp [hpid]⟩
  unfold dkg_round2_endpoint rust_dkg_round2
  rw [hne, hany]
  rfl

/-- Witness for C8: the caller `"01"` receiving back its own package
`("01","a1")` alongside `("02","a2")` is rejected. -/
theorem dkg_round2_rejects_own_package_witness :
    dkg_round2_endpoint (rust_dkg_round2 (fun _ _ => [])) "01"
        [("02", "a2"), ("01", "a1")] =
      .error (500, "Internal Server Error: DKG Round 2") := by
  have h := dkg_round2_rejects_own_package (fun _ _ => []) "01"
    [("02", "a2"), ("01", "a1")] ⟨("01", "a1"), by decide, rfl⟩
  simpa [handle_rust_error] using h

/-- Claim C9: the signer's dkgRound2 endpoint rejects an empty package list,
and its dkgRound3 endpoint rejects a call in which either package list is
empty, in each case with HTTP 400 and without invoking the cryptographic
engine (the result is the same for every engine function). -/
theorem dkg_round23_reject_empty_before_engine :
    (∀ (engine : String → List (String × String) →
          Except PyExc (List (String × String))) (pid : String),
        dkg_round2_endpoint engine pid [] =
          .error (400, "Missing \x27pkgs_hex\x27 in request body")) ∧
      ∀ (engine : List (String × String) → List (String × String) →
            Except PyExc (String × String))
        (pid : String) (r1 r2 : List (String × String)),
        r1 = [] ∨ r2 = [] →
          dkg_round3_endpoint engine pid r1 r2 =
            .error (400, "Missing \x27r1_pkgs_hex\x27 or \x27r2_pkgs_hex\x27 in request body") := by
  constructor
  · intro engine pid
    rfl
  · intro engine pid r1 r2 h
    unfold dkg_round3_endpoint
    rcases h with rfl | rfl
    · rfl
    · have : (r1.isEmpty || (List.nil (α := String × String)).isEmpty) = true := by
        simp [List.isEmpty]
      rw [this]
      rfl

/-- Witness for C9: both rejections at concrete inputs, with a concrete
engine whose answers differ from the endpoints' (showing it was not used). -/
theorem dkg_round23_reject_empty_before_engine_witness :
    dkg_round2_endpoint (fun _ _ => .ok [("02", "x")]) "01" [] =
        .error (400, "Missing \x27pkgs_hex\x27 in request body") ∧
      dkg_round3_endpoint (fun _ _ => .ok ("pk", "vk")) "01" [("02", "a2")] [] =
        .error (400, "Missing \x27r1_pkgs_hex\x27 or \x27r2_pkgs_hex\x27 in request body") :=
  ⟨dkg_round23_reject_empty_before_engine.1 (fun _ _ => .ok [("02", "x")]) "01",
    dkg_round23_reject_empty_before_engine.2 (fun _ _ => .ok ("pk", "vk")) "01"
      [("02", "a2")] [] (Or.inr rfl)⟩

/-! ## Coordinator orchestration (`src/coordinator/coordinator.py`) -/

/-- The interface the coordinator sees of one signer node: the four DKG
endpoints it calls.  For `status`, `round1` and `round2`, `.error` covers
both a transport failure and an HTTP error response: the coordinator reads
the expected fields of every one of these responses, so an error body raises
`KeyError` and aborts the run just as a transport failure does.  `round3` is
two-level, because the coordinator never examines round-3 responses beyond
index 0: the outer `.error` is a transport failure (raises inside
`asyncio.gather`), while `.ok body` is a delivered response whose parsed
`body` is either the artifacts or an error body (`.error` with the response's
status and detail) that only index 0 of the gathered list ever surfaces. -/
structure SignerIface where
  status : Except HErr StatusResp
  round1 : Except HErr R1Resp
  round2 : List (String × String) → Except HErr R2Resp
  round3 : List (String × String) → List (String × String) →
    Except HErr (Except HErr R3Resp)

/-- A request the coordinator issues to a signer during `run_dkg`, with the
routed payload it carries. -/
inductive Req where
  | status
  | round1
  | round2 (pkgs_hex : List (String × String))
  | round3 (r1_pkgs_hex r2_pkgs_hex : List (String × String))
deriving DecidableEq

/-- `asyncio.gather` over per-signer calls: all requests are dispatched; if
any call raises, the whole round raises. -/
def gather {α β : Type} (f : α → Except HErr β) : List α → Except HErr (List β)
  | [] => .ok []
  | a :: as =>
    match f a with
    | .error e => .error e
    | .ok b =>
      match gather f as with
      | .error e => .error e
      | .ok bs => .ok (b :: bs)

/-- `coordinator.py` `check_dkg_status`, after the statuses are gathered: the
loop returns `(False, "", "")` at the first node lacking keys, otherwise
`statuses[0]`'s artifacts (an empty signer list would raise `IndexError`). -/
def check_dkg_statuses (statuses : List StatusResp) :
    Except HErr (Bool × String × String) :=
  if statuses.any (fun st => !st.is_exist) then
    .ok (false, "", "")
  else
    match statuses with
    | [] => .error (500, "IndexError: list index out of range")
    | s0 :: _ => .ok (true, s0.verify_key_hex, s0.pubkp_hex)

/-- `coordinator.py` `check_dkg_status`: gather `GET /dkg/status` from every
signer, then inspect the statuses. -/
def check_dkg_status (signers : List SignerIface) :
    Except HErr (Bool × String × String) :=
  match gather (fun s => s.status) signers with
  | .error e => .error e
  | .ok statuses => check_dkg_statuses statuses

/-- `coordinator.py` line 96: `r1_pkgs`, the `(id_hex, pkg_hex)` pairs
extracted from the round-1 responses. -/
def r1PkgsOf (round1_data : List R1Resp) : List (String × String) :=
  round1_data.map (fun d => (d.id_hex, d.pkg_hex))

/-- `coordinator.py` lines 101 and 132: the per-signer identifiers
`[data["id_hex"] for data in round1_data]` the coordinator zips with the
signer list. -/
def idsOf (round1_data : List R1Resp) : List String :=
  round1_data.map (fun d => d.id_hex)

/-- `coordinator.py` lines 115-123: the flattened multiset of
`(sender, target, payload)` built from all round-2 responses. -/
def r2FlatOf (round2_data : List R2Resp) : List (String × String × String) :=
  flattenR2 (round2_data.map (fun d => (d.id_hex, d.pkgs2)))

/-- The requests issued by a `run_dkg` run that ends during the status
check. -/
def statusTraceOf (signers : List SignerIface) : List Req :=
  signers.map (fun _ => Req.status)

/-- The requests issued by a run that ends during round 1. -/
def round1TraceOf (signers : List SignerIface) : List Req :=
  statusTraceOf signers ++ signers.map (fun _ => Req.round1)

/-- The requests issued by a run that ends during round 2, including the
per-recipient round-2 bodies. -/
def round2TraceOf (signers : List SignerIface) (round1_data : List R1Resp) :
    List Req :=
  round1TraceOf signers ++
    (idsOf round1_data).map (fun self_id =>
      Req.round2 (pkgsForSigner (r1PkgsOf round1_data) self_id))

/-- The requests issued by a run that reaches round 3, including the
per-recipient round-3 bodies. -/
def round3TraceOf (signers : List SignerIface) (round1_data : List R1Resp)
    (round2_data : List R2Resp) : List Req :=
  round2TraceOf signers round1_data ++
    (idsOf round1_data).map (fun self_id =>
      Req.round3 (pkgsForSigner (r1PkgsOf round1_data) self_id)
        (r2PkgsForSigner (r2FlatOf round2_data) self_id))

/-- Round 3 of `run_dkg` (`coordinator.py` lines 129-158): fan out the
per-recipient round-3 bodies; the `try` block covers only the `gather`, so a
transport failure of any node aborts, but HTTP error responses are parsed
like any other body.  The coordinator then reads only
`round3_data[0]["verify_key_hex"]` and `round3_data[0]["pubkp_hex"]` (lines
154-155): an error body at index 0 raises `KeyError` there, while error
bodies of the other nodes are never examined — the run succeeds with the
first node's artifacts regardless of them, and with no cross-node
comparison. -/
def run_dkg_round3_phase (signers : List SignerIface)
    (round1_data : List R1Resp) (round2_data : List R2Resp) :
    Except HErr (String × String) × List Req :=
  match gather
      (fun sp => sp.1.round3 (pkgsForSigner (r1PkgsOf round1_data) sp.2)
        (r2PkgsForSigner (r2FlatOf round2_data) sp.2))
      (signers.zip (idsOf round1_data)) with
  | .error e => (.error e, round3TraceOf signers round1_data round2_data)
  | .ok round3_data =>
    match round3_data with
    | [] => (.error (500, "IndexError: list index out of range"),
        round3TraceOf signers round1_data round2_data)
    | Except.error _ :: _ => (.error (keyError "verify_key_hex"),
        round3TraceOf signers round1_data round2_data)
    | Except.ok d0 :: _ => (.ok (d0.verify_key_hex, d0.pubkp_hex),
        round3TraceOf signers round1_data round2_data)

/-- Round 2 of `run_dkg` (`coordinator.py` lines 98-125): fan out the
per-recipient round-2 bodies, then continue with round 3. -/
def run_dkg_round2_phase (signers : List SignerIface)
    (round1_data : List R1Resp) :
    Except HErr (String × String) × List Req :=
  match gather
      (fun sp => sp.1.round2 (pkgsForSigner (r1PkgsOf round1_data) sp.2))
      (signers.zip (idsOf round1_data)) with
  | .error e => (.error e, round2TraceOf signers round1_data)
  | .ok round2_data => run_dkg_round3_phase signers round1_data round2_data

/-- Round 1 of `run_dkg` (`coordinator.py` lines 85-97): collect every
signer's broadcast package, then continue with round 2. -/
def run_dkg_round1_phase (signers : List SignerIface) :
    Except HErr (String × String) × List Req :=
  match gather (fun s => s.round1) signers with
  | .error e => (.error e, round1TraceOf signers)
  | .ok round1_data => run_dkg_round2_phase signers round1_data

/-- `coordinator.py` `run_dkg`: the full orchestration, returning the result
(Group Public Artifacts, or the error it raises) together with the list of
requests issued.  Mirrors the source: status short-circuit, then rounds 1-3
via the phase functions above. -/
def run_dkg (signers : List SignerIface) :
    Except HErr (String × String) × List Req :=
  match check_dkg_status signers with
  | .error e => (.error e, statusTraceOf signers)
  | .ok (true, vk, pk) => (.ok (vk, pk), statusTraceOf signers)
  | .ok (false, _, _) => run_dkg_round1_phase signers

/-! ### Lemmas about `gather` -/

theorem gather_ok_cons {α β : Type} {f : α → Except HErr β} {a : α}
    {as : List α} {bs : List β} (h : gather f (a :: as) = .ok bs) :
    ∃ b bs', f a = .ok b ∧ gather f as = .ok bs' ∧ bs = b :: bs' := by
  unfold gather at h
  cases hfa : f a with
  | error e =>
    rw [hfa] at h
    exact absurd h (by simp)
  | ok b =>
    rw [hfa] at h
    cases hg : gather f as with
    | error e =>
      rw [hg] at h
      exact absurd h (by simp)
    | ok bs' =>
      rw [hg] at h
      simp only [Except.ok.injEq] at h
      exact ⟨b, bs', rfl, rfl, h.symm⟩

theorem gather_ok_length {α β : Type} {f : α → Except HErr β} :
    ∀ {l : List α} {bs : List β}, gather f l = .ok bs → bs.length = l.length := by
  intro l
  induction l with
  | nil =>
    intro bs h
    unfold gather at h
    simp only [Except.ok.injEq] at h
    simp [← h]
  | cons a as ih =>
    intro bs h
    obtain ⟨b, bs', _, hg, rfl⟩ := gather_ok_cons h
    simp [ih hg]

theorem gather_ok_get {α β : Type} {f : α → Except HErr β} :
    ∀ {l : List α} {bs : List β}, gather f l = .ok bs →
      ∀ (i : Nat) (h1 : i < l.length) (h2 : i < bs.length),
        f (l.get ⟨i, h1⟩) = .ok (bs.get ⟨i, h2⟩) := by
  intro l
  induction l with
  | nil =>
    intro bs h i h1 h2
    exact absurd h1 (by simp)
  | cons a as ih =>
    intro bs h i h1 h2
    obtain ⟨b, bs', hfa, hg, rfl⟩ := gather_ok_cons h
    match i with
    | 0 => simpa using hfa
    | Nat.succ j =>
      exact ih hg j (by simpa using h1) (by simpa using h2)

theorem gather_error_of_mem {α β : Type} {f : α → Except HErr β} {a : α} :
    ∀ {l : List α}, a ∈ l → (∀ b, f a ≠ .ok b) →
      ∃ e, gather f l = .error e := by
  intro l
  induction l with
  | nil =>
    intro h
    cases h
  | cons x xs ih =>
    intro hmem hfa
    cases hfx : f x with
    | error e =>
      refine ⟨e, ?_⟩
      unfold gather
      rw [hfx]
    | ok b =>
      have hax : a ∈ xs := by
        cases hmem with
        | head => exact absurd hfx (hfa b)
        | tail _ h => exact h
      obtain ⟨e, hg⟩ := ih hax hfa
      refine ⟨e, ?_⟩
      unfold gather
      rw [hfx, hg]

theorem gather_ok_forall {α β : Type} {f : α → Except HErr β} {p : β → Prop} :
    ∀ {l : List α}, (∀ a ∈ l, ∃ b, f a = .ok b ∧ p b) →
      ∃ bs, gather f l = .ok bs ∧ ∀ b ∈ bs, p b := by
  intro l
  induction l with
  | nil =>
    intro _
    exact ⟨[], rfl, by simp⟩
  | cons a as ih =>
    intro h
    obtain ⟨b, hfa, hpb⟩ := h a (List.mem_cons_self a as)
    obtain ⟨bs, hg, hp⟩ := ih (fun x hx => h x (List.mem_cons_of_mem _ hx))
    refine ⟨b :: bs, ?_, ?_⟩
    · unfold gather
      rw [hfa, hg]
    · intro c hc
      rcases List.mem_cons.mp hc with rfl | hc'
      · exact hpb
      · exact hp c hc'

theorem mem_zip_of_get {α β : Type} :
    ∀ (l1 : List α) (l2 : List β) (i : Nat) (h1 : i < l1.length)
      (h2 : i < l2.length),
      (l1.get ⟨i, h1⟩, l2.get ⟨i, h2⟩) ∈ l1.zip l2 := by
  intro l1
  induction l1 with
  | nil =>
    intro l2 i h1 h2
    exact absurd h1 (by simp)
  | cons a as ih =>
    intro l2 i h1 h2
    cases l2 with
    | nil => exact absurd h2 (by simp)
    | cons b bs =>
      match i with
      | 0 => exact List.mem_cons_self _ _
      | Nat.succ j =>
        exact List.mem_cons_of_mem _
          (ih bs j (by simpa using h1) (by simpa using h2))

theorem any_not_exist_false {l : List StatusResp}
    (h : ∀ st ∈ l, st.is_exist = true) :
    l.any (fun st => !st.is_exist) = false := by
  rw [List.any_eq_false]
  intro st hst
  simp [h st hst]

/-! ### Concrete signer populations -/

/-- A signer without existing keys, with scripted round responses: used to
exercise a full fresh DKG run of the coordinator. -/
def fresh_signer (id pkg : String) (r2out : List (String × String))
    (r3 : R3Resp) : SignerIface where
  status := .ok ⟨false, "", "", id⟩
  round1 := .ok ⟨id, pkg⟩
  round2 := fun _ => .ok ⟨id, r2out⟩
  round3 := fun _ _ => .ok (.ok r3)

/-- A signer that already holds keys and reports the given Group Public
Artifacts; its round endpoints are never supposed to be reached. -/
def exist_signer (vk pk id : String) : SignerIface where
  status := .ok ⟨true, vk, pk, id⟩
  round1 := .error (500, "unreachable")
  round2 := fun _ => .error (500, "unreachable")
  round3 := fun _ _ => .error (500, "unreachable")

/-- Counterexample to claim C1: a two-signer run in which the nodes return
*different* Group Public Artifacts from round 3 — `("aa","bb")` versus
`("cc","dd")` — yet `run_dkg` succeeds and returns the first node's answer:
no mismatch check is performed and nothing aborts. -/
theorem run_dkg_mismatch_not_aborted :
    (fresh_signer "01" "a1" [("02", "c12")] ⟨"aa", "bb"⟩).round3
        [("02", "a2")] [("02", "c21")] = .ok (.ok ⟨"aa", "bb"⟩) ∧
      (fresh_signer "02" "a2" [("01", "c21")] ⟨"cc", "dd"⟩).round3
        [("01", "a1")] [("01", "c12")] = .ok (.ok ⟨"cc", "dd"⟩) ∧
      (⟨"aa", "bb"⟩ : R3Resp) ≠ ⟨"cc", "dd"⟩ ∧
      (run_dkg [fresh_signer "01" "a1" [("02", "c12")] ⟨"aa", "bb"⟩,
        fresh_signer "02" "a2" [("01", "c21")] ⟨"cc", "dd"⟩]).1 =
        .ok ("aa", "bb") :=
  ⟨rfl, rfl, by decide, rfl⟩

/-- Claim C1 (amended): after issuing dkgRound3 to all nodes, `run_dkg`
returns the verifying key and public key package of the *first* node's
round-3 response, without comparing the other nodes' artifacts — the result
is the same whatever the second node returns. -/
theorem run_dkg_returns_first_round3_unchecked (d0 d1 : R3Resp) :
    (run_dkg [fresh_signer "01" "a1" [("02", "c12")] d0,
        fresh_signer "02" "a2" [("01", "c21")] d1]).1 =
      .ok (d0.verify_key_hex, d0.pubkp_hex) := rfl

/-- Witness for C1 (amended) at concrete differing artifacts. -/
theorem run_dkg_returns_first_round3_unchecked_witness :
    (run_dkg [fresh_signer "01" "a1" [("02", "c12")] ⟨"vk0", "pk0"⟩,
        fresh_signer "02" "a2" [("01", "c21")] ⟨"vk1", "pk1"⟩]).1 =
      .ok ("vk0", "pk0") :=
  run_dkg_returns_first_round3_unchecked ⟨"vk0", "pk0"⟩ ⟨"vk1", "pk1"⟩

/-- Counterexample to claim C2: two nodes report existing keys with
*different* Group Public Artifacts, yet the skip-DKG status check returns the
first node's answer with no consistency error raised. -/
theorem check_status_mismatch_not_detected :
    (exist_signer "aa" "bb" "01").status = .ok ⟨true, "aa", "bb", "01"⟩ ∧
      (exist_signer "cc" "dd" "02").status = .ok ⟨true, "cc", "dd", "02"⟩ ∧
      ("aa", "bb") ≠ ("cc", "dd") ∧
      (run_dkg [exist_signer "aa" "bb" "01", exist_signer "cc" "dd" "02"]).1 =
        .ok ("aa", "bb") :=
  ⟨rfl, rfl, by decide, rfl⟩

/-- Claim C2 (amended): when every node's status reports existing keys, the
orchestrator returns the first node's Group Public Artifacts without comparing
the other nodes' artifacts against them — the answer is the same whatever the
second node reports. -/
theorem check_status_returns_first_silently
    (vk0 pk0 id0 vk1 pk1 id1 : String) :
    (run_dkg [exist_signer vk0 pk0 id0, exist_signer vk1 pk1 id1]).1 =
      .ok (vk0, pk0) := rfl

/-- Witness for C2 (amended) at concrete differing artifacts. -/
theorem check_status_returns_first_silently_witness :
    (run_dkg [exist_signer "vkA" "pkA" "01", exist_signer "vkB" "pkB" "02"]).1 =
      .ok ("vkA", "pkA") :=
  check_status_returns_first_silently "vkA" "pkA" "01" "vkB" "pkB" "02"

/-- Claim C5: when the initial status query reports that every node already
has keys, `run_dkg` returns the existing Group Public Artifacts immediately
and the request trace consists of the status queries only — no round-1,
round-2 or round-3 request is issued. -/
theorem run_dkg_skips_when_all_keys_exist
    (s0 : SignerIface) (rest : List SignerIface) (st0 : StatusResp)
    (h0 : s0.status = .ok st0) (h0e : st0.is_exist = true)
    (hrest : ∀ s ∈ rest, ∃ st, s.status = .ok st ∧ st.is_exist = true) :
    run_dkg (s0 :: rest) =
      (.ok (st0.verify_key_hex, st0.pubkp_hex),
        (s0 :: rest).map (fun _ => Req.status)) := by
  obtain ⟨sts, hg, hall⟩ := gather_ok_forall
    (f := fun s : SignerIface => s.status) (p := fun st => st.is_exist = true) hrest
  have hgc : gather (fun s : SignerIface => s.status) (s0 :: rest) =
      .ok (st0 :: sts) := by
    unfold gather
    rw [h0, hg]
  have hany : (st0 :: sts).any (fun st => !st.is_exist) = false := by
    refine any_not_exist_false ?_
    intro st hst
    rcases List.mem_cons.mp hst with rfl | h
    · exact h0e
    · exact hall st h
  have hck : check_dkg_status (s0 :: rest) =
      .ok (true, st0.verify_key_hex, st0.pubkp_hex) := by
    unfold check_dkg_status
    rw [hgc]
    show check_dkg_statuses (st0 :: sts) = _
    unfold check_dkg_statuses
    rw [hany]
    rfl
  unfold run_dkg
  rw [hck]
  rfl

/-- Witness for C5: two keys-holding signers; the run returns their artifacts
and issues only the two status queries. -/
theorem run_dkg_skips_when_all_keys_exist_witness :
    run_dkg [exist_signer "aa" "bb" "01", exist_signer "aa" "bb" "02"] =
      (.ok ("aa", "bb"), [Req.status, Req.status]) := by
  have h := run_dkg_skips_when_all_keys_exist (exist_signer "aa" "bb" "01")
    [exist_signer "aa" "bb" "02"] ⟨true, "aa", "bb", "01"⟩ rfl rfl
    (by
      intro s hs
      rcases List.mem_cons.mp hs with rfl | hs'
      · exact ⟨⟨true, "aa", "bb", "02"⟩, rfl, rfl⟩
      · cases hs')
  simpa using h

/-- The group's sole signer node as the coordinator sees it for claim C10:
fresh keys, a scripted round-1 response, and rounds 2 and 3 served by the
modelled signer endpoints over arbitrary engine functions. -/
def solo_signer
    (eng2 : String → List (String × String) →
      Except PyExc (List (String × String)))
    (eng3 : List (String × String) → List (String × String) →
      Except PyExc (String × String)) : SignerIface where
  status := .ok ⟨false, "", "", "01"⟩
  round1 := .ok ⟨"01", "a1"⟩
  round2 := fun pkgs => dkg_round2_endpoint eng2 "01" pkgs
  round3 := fun r1 r2 => .ok (dkg_round3_endpoint eng3 "01" r1 r2)

/-- Claim C10: with exactly one signer, a fresh DKG run can never complete,
whatever the cryptographic engine does: the coordinator's own-package
exclusion makes the round-2 input of the sole signer empty, the signer's
non-empty validation rejects it with HTTP 400, and the run fails with that
error after issuing the empty round-2 request (and never reaches round 3). -/
theorem single_signer_dkg_always_fails
    (eng2 : String → List (String × String) →
      Except PyExc (List (String × String)))
    (eng3 : List (String × String) → List (String × String) →
      Except PyExc (String × String)) :
    run_dkg [solo_signer eng2 eng3] =
      (.error (400, "Missing \x27pkgs_hex\x27 in request body"),
        [Req.status, Req.round1, Req.round2 []]) := rfl

/-! ### Abort-on-failure (claim C6) -/

theorem gather_ok_of_mem {α β : Type} {f : α → Except HErr β} {a : α} :
    ∀ {l : List α} {bs : List β}, gather f l = .ok bs → a ∈ l →
      ∃ b, f a = .ok b := by
  intro l
  induction l with
  | nil =>
    intro bs _ h
    cases h
  | cons x xs ih =>
    intro bs hg hmem
    obtain ⟨b, bs', hfx, hg', rfl⟩ := gather_ok_cons hg
    rcases List.mem_cons.mp hmem with rfl | h
    · exact ⟨b, hfx⟩
    · exact ih hg' h

theorem gather_ok_mem_of_mem {α β : Type} {f : α → Except HErr β} {a : α}
    {b : β} :
    ∀ {l : List α} {bs : List β}, gather f l = .ok bs → a ∈ l →
      f a = .ok b → b ∈ bs := by
  intro l
  induction l with
  | nil =>
    intro bs _ h
    cases h
  | cons x xs ih =>
    intro bs hg hmem hfa
    obtain ⟨b', bs', hfx, hg', rfl⟩ := gather_ok_cons hg
    rcases List.mem_cons.mp hmem with rfl | h
    · have hbb : b = b' := by
        rw [hfa] at hfx
        injection hfx
      rw [hbb]
      exact List.mem_cons_self _ _
    · exact List.mem_cons_of_mem _ (ih hg' h hfa)

theorem exists_zip_partner {α β : Type} :
    ∀ {l1 : List α} {l2 : List β} {a : α}, a ∈ l1 → l1.length = l2.length →
      ∃ b, (a, b) ∈ l1.zip l2 := by
  intro l1
  induction l1 with
  | nil =>
    intro l2 a h
    cases h
  | cons x xs ih =>
    intro l2 a hmem hlen
    cases l2 with
    | nil => simp at hlen
    | cons y ys =>
      rcases List.mem_cons.mp hmem with rfl | h
      · exact ⟨y, List.mem_cons_self _ _⟩
      · obtain ⟨b, hb⟩ := ih h (by simpa using hlen)
        exact ⟨b, List.mem_cons_of_mem _ hb⟩

theorem round3_not_mem_statusTrace {signers : List SignerIface}
    {r1 r2 : List (String × String)} :
    Req.round3 r1 r2 ∉ statusTraceOf signers := by
  unfold statusTraceOf
  intro h
  rcases List.mem_map.mp h with ⟨s, _, heq⟩
  cases heq

theorem round3_not_mem_round1Trace {signers : List SignerIface}
    {r1 r2 : List (String × String)} :
    Req.round3 r1 r2 ∉ round1TraceOf signers := by
  unfold round1TraceOf
  intro h
  rcases List.mem_append.mp h with h | h
  · exact round3_not_mem_statusTrace h
  · rcases List.mem_map.mp h with ⟨s, _, heq⟩
    cases heq

theorem round3_not_mem_round2Trace {signers : List SignerIface}
    {round1_data : List R1Resp} {r1 r2 : List (String × String)} :
    Req.round3 r1 r2 ∉ round2TraceOf signers round1_data := by
  unfold round2TraceOf
  intro h
  rcases List.mem_append.mp h with h | h
  · exact round3_not_mem_round1Trace h
  · rcases List.mem_map.mp h with ⟨id, _, heq⟩
    cases heq

theorem run_dkg_status_error {signers : List SignerIface} {e : HErr}
    (h : gather (fun s : SignerIface => s.status) signers = .error e) :
    run_dkg signers = (.error e, statusTraceOf signers) := by
  have hck : check_dkg_status signers = .error e := by
    unfold check_dkg_status
    rw [h]
  unfold run_dkg
  rw [hck]

theorem check_dkg_status_fresh {signers : List SignerIface}
    {statuses : List StatusResp} {st : StatusResp}
    (hg : gather (fun s : SignerIface => s.status) signers = .ok statuses)
    (hmem : st ∈ statuses) (hE : st.is_exist = false) :
    check_dkg_status signers = .ok (false, "", "") := by
  have hany : statuses.any (fun s => !s.is_exist) = true :=
    List.any_eq_true.mpr ⟨st, hmem, by rw [hE]; rfl⟩
  unfold check_dkg_status
  rw [hg]
  show check_dkg_statuses statuses = _
  unfold check_dkg_statuses
  rw [hany]
  rfl

theorem run_dkg_fresh_phase {signers : List SignerIface} {a b : String}
    (hck : check_dkg_status signers = .ok (false, a, b)) :
    run_dkg signers = run_dkg_round1_phase signers := by
  unfold run_dkg
  rw [hck]

theorem round1_phase_error {signers : List SignerIface} {e : HErr}
    (h : gather (fun s : SignerIface => s.round1) signers = .error e) :
    run_dkg_round1_phase signers = (.error e, round1TraceOf signers) := by
  unfold run_dkg_round1_phase
  rw [h]

theorem round1_phase_ok {signers : List SignerIface}
    {round1_data : List R1Resp}
    (h : gather (fun s : SignerIface => s.round1) signers = .ok round1_data) :
    run_dkg_round1_phase signers = run_dkg_round2_phase signers round1_data := by
  unfold run_dkg_round1_phase
  rw [h]

theorem round2_phase_error {signers : List SignerIface}
    {round1_data : List R1Resp} {e : HErr}
    (h : gather
        (fun sp : SignerIface × String =>
          sp.1.round2 (pkgsForSigner (r1PkgsOf round1_data) sp.2))
        (signers.zip (idsOf round1_data)) = .error e) :
    run_dkg_round2_phase signers round1_data =
      (.error e, round2TraceOf signers round1_data) := by
  unfold run_dkg_round2_phase
  rw [h]

theorem round2_phase_ok {signers : List SignerIface}
    {round1_data : List R1Resp} {round2_data : List R2Resp}
    (h : gather
        (fun sp : SignerIface × String =>
          sp.1.round2 (pkgsForSigner (r1PkgsOf round1_data) sp.2))
        (signers.zip (idsOf round1_data)) = .ok round2_data) :
    run_dkg_round2_phase signers round1_data =
      run_dkg_round3_phase signers round1_data round2_data := by
  unfold run_dkg_round2_phase
  rw [h]

theorem round3_phase_error {signers : List SignerIface}
    {round1_data : List R1Resp} {round2_data : List R2Resp} {e : HErr}
    (h : gather
        (fun sp : SignerIface × String =>
          sp.1.round3 (pkgsForSigner (r1PkgsOf round1_data) sp.2)
            (r2PkgsForSigner (r2FlatOf round2_data) sp.2))
        (signers.zip (idsOf round1_data)) = .error e) :
    run_dkg_round3_phase signers round1_data round2_data =
      (.error e, round3TraceOf signers round1_data round2_data) := by
  unfold run_dkg_round3_phase
  rw [h]

/-- A fresh signer whose round-3 engine call fails: the endpoint converts the
engine error into `handle_rust_error`'s HTTP 500 error body, which `httpx`
delivers to the coordinator as a normal (parsed) response. -/
def r3_engine_error_signer : SignerIface where
  status := .ok ⟨false, "", "", "02"⟩
  round1 := .ok ⟨"02", "a2"⟩
  round2 := fun _ => .ok ⟨"02", [("01", "c21")]⟩
  round3 := fun _ _ =>
    .ok (.error (handle_rust_error .runtimeError "DKG Round 3"))

/-- Counterexample to claim C6: in a fresh two-signer run the second node's
round-3 request is issued and fails — its engine raises, so its response is
the HTTP 500 error body — yet `run_dkg` reports success and returns the first
node's artifacts: the coordinator reads only `round3_data[0]`, so a non-first
node's round-3 failure does not make the run report failure. -/
theorem run_dkg_round3_failure_ignored :
    r3_engine_error_signer.round3 [("01", "a1")] [("01", "c12")] =
        .ok (.error (500, "Internal Server Error: DKG Round 3")) ∧
      Req.round3 [("01", "a1")] [("01", "c12")] ∈
        (run_dkg [fresh_signer "01" "a1" [("02", "c12")] ⟨"aa", "bb"⟩,
          r3_engine_error_signer]).2 ∧
      (run_dkg [fresh_signer "01" "a1" [("02", "c12")] ⟨"aa", "bb"⟩,
        r3_engine_error_signer]).1 = .ok ("aa", "bb") := by
  refine ⟨rfl, ?_, rfl⟩
  decide

/-- Claim C6 (amended): if one node of the group is fresh (no keys yet) and
its round-1 call fails, or its round-2 call fails, or its round-3 call fails
at the transport level (no response body is delivered, so `asyncio.gather`
raises), the whole `run_dkg` run reports failure — the orchestrator ends with
an error instead of returning artifacts — and when the failing call is
round 2, no dkgRound3 request is issued at all, so no node can transition to
KeysExist from that run.  (A round-3 HTTP *error response*, by contrast,
aborts the run only when it is the first node's: see the counterexample
above.) -/
theorem run_dkg_aborts_on_node_failure
    (signers : List SignerIface) (s : SignerIface) (hs : s ∈ signers)
    (hfresh : ∃ st, s.status = .ok st ∧ st.is_exist = false)
    (hfault :
      (∀ b, s.round1 ≠ .ok b) ∨
        (∀ pkgs b, s.round2 pkgs ≠ .ok b) ∨
        ∀ r1 r2 b, s.round3 r1 r2 ≠ .ok b) :
    (∃ e, (run_dkg signers).1 = .error e) ∧
      ((∀ pkgs b, s.round2 pkgs ≠ .ok b) →
        ∀ r1 r2, Req.round3 r1 r2 ∉ (run_dkg signers).2) := by
  obtain ⟨st, hst, hstE⟩ := hfresh
  cases hgs : gather (fun s : SignerIface => s.status) signers with
  | error e =>
    rw [run_dkg_status_error hgs]
    exact ⟨⟨e, rfl⟩, fun _ r1 r2 => round3_not_mem_statusTrace⟩
  | ok statuses =>
    have hck := check_dkg_status_fresh hgs (gather_ok_mem_of_mem hgs hs hst) hstE
    rw [run_dkg_fresh_phase hck]
    cases hg1 : gather (fun s : SignerIface => s.round1) signers with
    | error e =>
      rw [round1_phase_error hg1]
      exact ⟨⟨e, rfl⟩, fun _ r1 r2 => round3_not_mem_round1Trace⟩
    | ok round1_data =>
      rw [round1_phase_ok hg1]
      have hlen : signers.length = (idsOf round1_data).length := by
        unfold idsOf
        rw [List.length_map, gather_ok_length hg1]
      obtain ⟨xid, hpair⟩ := exists_zip_partner hs hlen
      rcases hfault with h1 | h2 | h3
      · obtain ⟨b, hb⟩ := gather_ok_of_mem hg1 hs
        exact absurd hb (h1 b)
      · obtain ⟨e, hg2⟩ := gather_error_of_mem
          (f := fun sp : SignerIface × String =>
            sp.1.round2 (pkgsForSigner (r1PkgsOf round1_data) sp.2))
          hpair (fun b => h2 _ b)
        rw [round2_phase_error hg2]
        exact ⟨⟨e, rfl⟩, fun _ r1 r2 => round3_not_mem_round2Trace⟩
      · cases hg2 : gather
            (fun sp : SignerIface × String =>
              sp.1.round2 (pkgsForSigner (r1PkgsOf round1_data) sp.2))
            (signers.zip (idsOf round1_data)) with
        | error e =>
          rw [round2_phase_error hg2]
          exact ⟨⟨e, rfl⟩, fun _ r1 r2 => round3_not_mem_round2Trace⟩
        | ok round2_data =>
          rw [round2_phase_ok hg2]
          obtain ⟨e, hg3⟩ := gather_error_of_mem
            (f := fun sp : SignerIface × String =>
              sp.1.round3 (pkgsForSigner (r1PkgsOf round1_data) sp.2)
                (r2PkgsForSigner (r2FlatOf round2_data) sp.2))
            hpair (fun b => h3 _ _ b)
          rw [round3_phase_error hg3]
          refine ⟨⟨e, rfl⟩, ?_⟩
          intro h2' r1 r2 _
          obtain ⟨b, hb⟩ := gather_ok_of_mem hg2 hpair
          exact absurd hb (h2' _ b)

/-- A fresh signer whose round-2 endpoint always fails: the fault injection
scenario of the spec's abort-on-failure property. -/
def faulty_round2_signer : SignerIface where
  status := .ok ⟨false, "", "", "01"⟩
  round1 := .ok ⟨"01", "a1"⟩
  round2 := fun _ => .error (500, "Internal Server Error: DKG Round 2")
  round3 := fun _ _ => .ok (.ok ⟨"aa", "bb"⟩)

/-- Witness for C6: with a two-signer group whose first node fails round 2,
the run errors and no round-3 request appears in the trace. -/
theorem run_dkg_aborts_on_node_failure_witness :
    (∃ e, (run_dkg [faulty_round2_signer,
        fresh_signer "02" "a2" [("01", "c21")] ⟨"aa", "bb"⟩]).1 = .error e) ∧
      ∀ r1 r2, Req.round3 r1 r2 ∉
        (run_dkg [faulty_round2_signer,
          fresh_signer "02" "a2" [("01", "c21")] ⟨"aa", "bb"⟩]).2 := by
  have hr2 : ∀ (pkgs : List (String × String)) (b : R2Resp),
      faulty_round2_signer.round2 pkgs ≠ .ok b := by
    intro pkgs b h
    simp [faulty_round2_signer] at h
  have h := run_dkg_aborts_on_node_failure
    [faulty_round2_signer, fresh_signer "02" "a2" [("01", "c21")] ⟨"aa", "bb"⟩]
    faulty_round2_signer (List.mem_cons_self _ _)
    ⟨⟨false, "", "", "01"⟩, rfl, rfl⟩
    (Or.inr (Or.inl hr2))
  exact ⟨h.1, h.2 hr2⟩
